import Mathlib

/-!
Shallow embedding of `src/extension/build/chromeextension/popup.js`
(the WebSafe Chrome-extension popup, class `WebSafeUI`).

The popup is a single-threaded, event-driven UI: it validates a URL with a
fixed regular expression, POSTs it to a scoring endpoint, and renders the
JSON response (a 0–100 score and a list of parameter rows) into the DOM.
We embed the DOM bits the code touches as a record `DOMState`, the network
as an oracle `FetchOutcome` (the resolved value of the single `fetch`),
and JSON payloads as an inductive `JsonVal`.  Each method of `WebSafeUI`
becomes a pure state-passing function of the same name.
-/

namespace WebSafe

/-! ### A regular-expression engine (Brzozowski derivatives)

`popup.js` line 90 tests the input against the JavaScript regex
`^(https?:\/\/)?([\w-]+\.)+[\w-]+(\/[\w- .\/?%&=]*)?$` with `.test`.
Since the pattern is anchored on both sides and has no flags, `.test`
decides whole-string membership in the denoted regular language, which a
derivative-based matcher decides as well. -/

inductive Rx where
  | fail : Rx
  | eps : Rx
  | chr : (Char → Bool) → Rx
  | seq : Rx → Rx → Rx
  | alt : Rx → Rx → Rx
  | star : Rx → Rx

def Rx.nullable : Rx → Bool
  | .fail => false
  | .eps => true
  | .chr _ => false
  | .seq a b => a.nullable && b.nullable
  | .alt a b => a.nullable || b.nullable
  | .star _ => true

def Rx.deriv : Rx → Char → Rx
  | .fail, _ => .fail
  | .eps, _ => .fail
  | .chr p, c => if p c then .eps else .fail
  | .seq a b, c =>
      if a.nullable then .alt (.seq (a.deriv c) b) (b.deriv c)
      else .seq (a.deriv c) b
  | .alt a b, c => .alt (a.deriv c) (b.deriv c)
  | .star a, c => .seq (a.deriv c) (.star a)

/-- Anchored whole-string match: fold the derivative over the characters
and test nullability. -/
def Rx.rmatch (r : Rx) (s : String) : Bool :=
  (s.data.foldl Rx.deriv r).nullable

/-- `r?` -/
def Rx.opt (r : Rx) : Rx := .alt r .eps

/-- `r+` -/
def Rx.plus (r : Rx) : Rx := .seq r (.star r)

/-- a single literal character -/
def Rx.lit1 (c : Char) : Rx := .chr (fun d => d == c)

/-- a literal character sequence -/
def Rx.lit : List Char → Rx
  | [] => .eps
  | c :: cs => .seq (Rx.lit1 c) (Rx.lit cs)

/-- JavaScript `\w` (no `u` flag): `[A-Za-z0-9_]`. -/
def wordCharB (c : Char) : Bool := c.isAlphanum || c == '_'

/-- the character class `[\w-]` -/
def hostCharB (c : Char) : Bool := wordCharB c || c == '-'

/-- the character class `[\w- ./?%&=]` -/
def pathCharB (c : Char) : Bool :=
  wordCharB c || c == '-' || c == ' ' || c == '.' || c == '/' ||
    c == '?' || c == '%' || c == '&' || c == '='

/-- The regex of `popup.js` line 90:
`^(https?:\/\/)?([\w-]+\.)+[\w-]+(\/[\w- .\/?%&=]*)?$`. -/
def urlPattern : Rx :=
  .seq (Rx.opt (.seq (Rx.lit "http".data)
                 (.seq (Rx.opt (Rx.lit1 's')) (Rx.lit "://".data))))
    (.seq (Rx.plus (.seq (Rx.plus (.chr hostCharB)) (Rx.lit1 '.')))
      (.seq (Rx.plus (.chr hostCharB))
        (Rx.opt (.seq (Rx.lit1 '/') (.star (.chr pathCharB))))))

/-- `popup.js` line 90, the validity test inside `validateInput`:
`const isValid = url && /^(https?:\/\/)?([\w-]+\.)+[\w-]+(\/[\w- .\/?%&=]*)?$/.test(url);`
applied to the already-trimmed `url`.  JavaScript coerces the result to a
boolean when it is consumed by `!isValid`, so the function is boolean-valued
here. -/
def validate (url : String) : Bool :=
  (url != "") && urlPattern.rmatch url

/-! ### JSON payloads

`response.json()` delivers an arbitrary JSON value; `displayResults` binds
it untyped.  Numbers are restricted to integers: every score any claim
speaks about is an integer 0–100. -/

inductive JsonVal where
  | null : JsonVal
  | bool : Bool → JsonVal
  | num : Int → JsonVal
  | str : String → JsonVal
  | arr : List JsonVal → JsonVal
  | obj : List (String × JsonVal) → JsonVal

mutual

/-- JS `String(v)` (template-literal interpolation): `null`, booleans and
numbers spelled out, strings verbatim, arrays joined by commas
(`Array.prototype.toString`), objects as `[object Object]`. -/
def jsDisplay : JsonVal → String
  | .null => "null"
  | .bool true => "true"
  | .bool false => "false"
  | .num n => toString n
  | .str s => s
  | .arr l => jsDisplayList l
  | .obj _ => "[object Object]"

/-- The array join: elements separated by commas. -/
def jsDisplayList : List JsonVal → String
  | [] => ""
  | [v] => jsDisplayElem v
  | v :: vs => jsDisplayElem v ++ "," ++ jsDisplayList vs

/-- One array element inside a join: `null` renders empty there. -/
def jsDisplayElem : JsonVal → String
  | .null => ""
  | v => jsDisplay v

end

/-- Interpolation of a possibly-undefined value (a missing field). -/
def jsDisplayOpt : Option JsonVal → String
  | none => "undefined"
  | some v => jsDisplay v

/-- First binding of a key in an object (the payloads of interest have no
duplicate keys). -/
def lookupField : List (String × JsonVal) → String → Option JsonVal
  | [], _ => none
  | (k2, v) :: rest, k => if k2 == k then some v else lookupField rest k

/-- JS property read `v.k`: a TypeError on `null`, the field (or
`undefined`, modelled `none`) otherwise. -/
def getProp : JsonVal → String → Except String (Option JsonVal)
  | .null, k => .error ("TypeError: cannot read properties of null, reading " ++ k)
  | .obj l, k => .ok (lookupField l k)
  | _, _ => .ok none

/-- JS `ToNumber` for the values `analysis.score / 10` can meet here:
`undefined` (missing field) is NaN, `null` is 0, booleans are 0/1.
NaN is modelled as `none`; string and object coercions (never exercised by
a claim) also land on `none`. -/
def scoreToNumber : Option JsonVal → Option Int
  | some (.num n) => some n
  | some .null => some 0
  | some (.bool b) => some (if b then 1 else 0)
  | _ => none

/-- `Math.round(analysis.score / 10)` of line 98 for an integer score `s`.
For `s` in the claims' range the IEEE-754 quotient `s / 10` is either an
exact half (ties, which `Math.round` sends up, toward +infinity) or lands
strictly on one side of the half, so the value is `⌊(s + 5) / 10⌋`, floor
division. -/
def roundDiv10 (s : Int) : Int := Int.fdiv (s + 5) 10

/-! ### The DOM state the popup touches -/

/-- One rendered row of the parameters list: the data the template literal
of lines 108–114 writes. -/
structure RenderedParam where
  icon : String
  name : String
  statusClass : String
  statusLabel : String
deriving Repr, DecidableEq

/-- The DOM bits `WebSafeUI` reads and writes. -/
structure DOMState where
  urlInput : String
  analyzeBtnDisabled : Bool
  btnTextHidden : Bool
  loaderHidden : Bool
  resultsHidden : Bool
  scoreValueText : String
  progressFillWidth : String
  parametersList : List RenderedParam
  popupExpanded : Bool
deriving Repr, DecidableEq

/-- `String.prototype.trim`: strip leading and trailing whitespace
(`Char.isWhitespace` covers the whitespace the popup can meet). -/
def jsTrim (s : String) : String :=
  String.mk (((s.data.dropWhile Char.isWhitespace).reverse.dropWhile
    Char.isWhitespace).reverse)

/-- A fresh popup DOM as `init` leaves it (line 18: collapsed, loader
hidden, results hidden, empty input). -/
def initialState : DOMState :=
  { urlInput := "", analyzeBtnDisabled := false, btnTextHidden := false,
    loaderHidden := true, resultsHidden := true, scoreValueText := "",
    progressFillWidth := "", parametersList := [], popupExpanded := false }

/-- Lines 88–92, `validateInput`: trims the input, tests `validate`, and
drives `analyzeBtn.disabled`. -/
def validateInput (st : DOMState) : DOMState :=
  { st with analyzeBtnDisabled := !validate (jsTrim st.urlInput) }

/-- Lines 123–133, `showLoading`. -/
def showLoading (isLoading : Bool) (st : DOMState) : DOMState :=
  if isLoading then
    { st with analyzeBtnDisabled := true, btnTextHidden := true, loaderHidden := false }
  else
    { st with analyzeBtnDisabled := false, btnTextHidden := false, loaderHidden := true }

/-- Lines 161–164, `expandPopup`. -/
def expandPopup (st : DOMState) : DOMState := { st with popupExpanded := true }

/-- `param.status.charAt(0).toUpperCase() + param.status.slice(1)`
(line 113); `Char.toUpper` agrees with `toUpperCase` on the ASCII status
vocabulary. -/
def capitalizeFirst (s : String) : String :=
  match s.data with
  | [] => ""
  | c :: cs => String.mk (c.toUpper :: cs)

/-- One iteration of the `forEach` body of lines 105–115, evaluating the
template literal: property reads in source order `icon`, `name`, `status`;
when `param.status` is not a string, `param.status.charAt` is not a
function and the iteration throws. -/
def renderParamItem (p : JsonVal) : Except String RenderedParam := do
  let icon ← getProp p "icon"
  let name ← getProp p "name"
  let status ← getProp p "status"
  match status with
  | some (.str s) =>
      .ok { icon := jsDisplayOpt icon, name := jsDisplayOpt name,
            statusClass := "status-" ++ s, statusLabel := capitalizeFirst s }
  | _ => .error "TypeError: param.status.charAt is not a function"

/-- The `forEach` loop: rows rendered before a throwing entry stay
appended; the throw aborts the rest of the loop. -/
def renderParamsLoop : List JsonVal → List RenderedParam × Option String
  | [] => ([], none)
  | p :: ps =>
    match renderParamItem p with
    | .ok r =>
        let rest := renderParamsLoop ps
        (r :: rest.1, rest.2)
    | .error e => ([], some e)

/-- Lines 94–117, `displayResults`, with JS exception semantics: the
returned state keeps the effects of the statements already executed, and
the second component is `some err` when the body threw (results section
unhidden first, then score text and fill width, then the list cleared,
then the loop). -/
def displayResults (st : DOMState) (analysis : JsonVal) : DOMState × Option String :=
  let st0 := { st with resultsHidden := false }
  match getProp analysis "score" with
  | .error e => (st0, some e)
  | .ok scoreField =>
    let st1 :=
      match scoreToNumber scoreField with
      | some n =>
          { st0 with scoreValueText := toString (roundDiv10 n) ++ "/10",
                     progressFillWidth := toString (roundDiv10 n * 10) ++ "%" }
      | none =>
          { st0 with scoreValueText := "NaN/10", progressFillWidth := "NaN%" }
    let st2 := { st1 with parametersList := [] }
    match getProp analysis "parameters" with
    | .error e => (st2, some e)
    | .ok pf =>
      match pf with
      | some (.arr l) =>
          let res := renderParamsLoop l
          ({ st2 with parametersList := res.1 }, res.2)
      | _ => (st2, some "TypeError: analysis.parameters.forEach is not a function")

/-! ### The network call and the analyze workflow -/

/-- The resolved behaviour of the one `fetch` of `performAnalysis`: the
transport fails (`networkError`, also covering a non-JSON success body),
or a response arrives non-2xx with a status code and body text
(`httpError`), or a 2xx response arrives whose parsed JSON body is
`success`. -/
inductive FetchOutcome where
  | success : JsonVal → FetchOutcome
  | httpError : Nat → String → FetchOutcome
  | networkError : String → FetchOutcome

/-- Lines 61–76, `performAnalysis`: on a non-ok response it throws
`HTTP error ${response.status}: ${await response.text()}`; the `catch`
only logs and rethrows, so every failure propagates to the caller. -/
def performAnalysis (outcome : FetchOutcome) : Except String JsonVal :=
  match outcome with
  | .success j => .ok j
  | .httpError status body =>
      .error ("HTTP error " ++ toString status ++ ": " ++ body)
  | .networkError msg => .error msg

/-- The observable outcome of one `handleAnalyze` call: the final DOM
state, whether `performAnalysis` (hence the network request) ran, and the
`alert` messages shown via `showError`. -/
structure AnalyzeResult where
  state : DOMState
  requestSent : Bool
  alerts : List String
deriving Repr, DecidableEq

/-- The generic failure message of line 55. -/
def analysisFailedMsg : String := "Analysis failed. Please try again."

/-- Lines 42–59, `handleAnalyze`: trim the input; an empty string only
shows `Please enter a URL` and returns; otherwise `showLoading(true)`,
await `performAnalysis`, on success `displayResults` then `expandPopup`,
any throw is caught and shows the generic message, and the `finally`
always runs `showLoading(false)`. -/
def handleAnalyze (st : DOMState) (outcome : FetchOutcome) : AnalyzeResult :=
  let url := jsTrim st.urlInput
  if url = "" then
    { state := st, requestSent := false, alerts := ["Please enter a URL"] }
  else
    let st1 := showLoading true st
    match performAnalysis outcome with
    | .error _ =>
        { state := showLoading false st1, requestSent := true,
          alerts := [analysisFailedMsg] }
    | .ok analysis =>
        match displayResults st1 analysis with
        | (st2, none) =>
            { state := showLoading false (expandPopup st2), requestSent := true,
              alerts := [] }
        | (st2, some _) =>
            { state := showLoading false st2, requestSent := true,
              alerts := [analysisFailedMsg] }

/-! ### Auto-fill and the auto-analyze preference -/

/-- `result.autoAnalyze !== false` (lines 193 and 208): an absent key
defaults to enabled. -/
def autoAnalyzeEnabled : Option Bool → Bool
  | some false => false
  | _ => true

/-- What `autoFillURL` did: the DOM state it left and, when it called
`setTimeout(() => this.handleAnalyze(), delay)`, the delay it passed. -/
structure AutoFillOutcome where
  state : DOMState
  analyzeDelayMs : Option Nat
deriving Repr, DecidableEq

/-- Lines 184–204, `autoFillURL`: `tabUrl = none` models no active tab or
a tab without a `url`; the guard `tab && tab.url` also rejects an empty
string (falsy), so nothing is filled then.  After filling and
`validateInput`, the storage callback schedules `handleAnalyze` after
500 ms when the preference is enabled and `this.urlInput.value.trim()` is
non-empty. -/
def autoFillURL (st : DOMState) (tabUrl : Option String)
    (storedAutoAnalyze : Option Bool) : AutoFillOutcome :=
  match tabUrl with
  | none => { state := st, analyzeDelayMs := none }
  | some u =>
    if u = "" then { state := st, analyzeDelayMs := none }
    else
      let st1 := validateInput { st with urlInput := u }
      if autoAnalyzeEnabled storedAutoAnalyze && !(jsTrim u == "") then
        { state := st1, analyzeDelayMs := some 500 }
      else
        { state := st1, analyzeDelayMs := none }

/-! ### The typed response shape of the spec's data model -/

/-- `ParameterResult` of the data model: a well-formed parameter entry. -/
structure ParameterResult where
  icon : String
  name : String
  status : String
deriving Repr, DecidableEq

/-- `AnalysisResponse` of the data model, with an integer score. -/
structure AnalysisResponse where
  score : Int
  parameters : List ParameterResult
deriving Repr, DecidableEq

/-- The JSON encoding of a well-formed parameter. -/
def ParameterResult.toJson (p : ParameterResult) : JsonVal :=
  .obj [("icon", .str p.icon), ("name", .str p.name), ("status", .str p.status)]

/-- The JSON encoding of a well-formed response. -/
def AnalysisResponse.toJson (a : AnalysisResponse) : JsonVal :=
  .obj [("score", .num a.score),
        ("parameters", .arr (a.parameters.map ParameterResult.toJson))]

/-- The row `displayResults` renders for one well-formed parameter. -/
def renderParam (p : ParameterResult) : RenderedParam :=
  { icon := p.icon, name := p.name,
    statusClass := "status-" ++ p.status,
    statusLabel := capitalizeFirst p.status }

/-! ### Helper lemmas -/

lemma showLoading_false_disabled (st : DOMState) :
    (showLoading false st).analyzeBtnDisabled = false := rfl

lemma showLoading_false_loaderHidden (st : DOMState) :
    (showLoading false st).loaderHidden = true := rfl

lemma showLoading_true_disabled (st : DOMState) :
    (showLoading true st).analyzeBtnDisabled = true := rfl

/-- No branch of `displayResults` writes `analyzeBtn.disabled`. -/
lemma displayResults_disabled (st : DOMState) (j : JsonVal) :
    ((displayResults st j).1).analyzeBtnDisabled = st.analyzeBtnDisabled := by
  simp only [displayResults]
  repeat' split
  all_goals rfl

/-- `expandPopup` does not write `analyzeBtn.disabled`. -/
lemma expandPopup_disabled (st : DOMState) :
    (expandPopup st).analyzeBtnDisabled = st.analyzeBtnDisabled := rfl

/-- With a non-empty trimmed URL, `handleAnalyze` runs the request and its
`finally` leaves the DOM as `showLoading false` of some state. -/
lemma handleAnalyze_nonempty (st : DOMState) (o : FetchOutcome)
    (h : jsTrim st.urlInput ≠ "") :
    (∃ s, (handleAnalyze st o).state = showLoading false s) ∧
      (handleAnalyze st o).requestSent = true := by
  simp only [handleAnalyze]
  rw [if_neg h]
  cases o with
  | success j =>
    simp only [performAnalysis]
    rcases hd : displayResults (showLoading true st) j with ⟨st2, err⟩
    cases err <;> simp [hd]
  | httpError c b => exact ⟨⟨_, rfl⟩, rfl⟩
  | networkError m => exact ⟨⟨_, rfl⟩, rfl⟩

/-- A well-formed parameter renders to its row without throwing. -/
lemma renderParamItem_toJson (p : ParameterResult) :
    renderParamItem p.toJson = .ok (renderParam p) := by
  simp [renderParamItem, ParameterResult.toJson, getProp, lookupField,
    renderParam, jsDisplayOpt, jsDisplay, bind, Except.bind]

/-- The loop over well-formed parameters renders them in order and never
throws. -/
lemma renderParamsLoop_map (l : List ParameterResult) :
    renderParamsLoop (l.map ParameterResult.toJson) = (l.map renderParam, none) := by
  induction l with
  | nil => rfl
  | cons p ps ih => simp [renderParamsLoop, renderParamItem_toJson, ih]

/-- `displayResults` on a well-formed response: results unhidden, score text
and fill width from the rounded score, the parameter list rebuilt from the
response alone, and no throw. -/
lemma displayResults_toJson (st : DOMState) (a : AnalysisResponse) :
    displayResults st a.toJson =
      ({ st with resultsHidden := false,
                 scoreValueText := toString (roundDiv10 a.score) ++ "/10",
                 progressFillWidth := toString (roundDiv10 a.score * 10) ++ "%",
                 parametersList := a.parameters.map renderParam }, none) := by
  simp [displayResults, AnalysisResponse.toJson, getProp, lookupField,
    scoreToNumber, renderParamsLoop_map]

/-- The code's integer formula agrees with mathematical half-up rounding of
`s / 10`. -/
lemma roundDiv10_eq_round (s : ℕ) :
    roundDiv10 (s : ℤ) = round ((s : ℚ) / 10) := by
  have h : (s : ℚ) / 10 + 1 / 2 = (((s : ℤ) + 5 : ℤ) : ℚ) / ((10 : ℕ) : ℚ) := by
    push_cast
    ring
  rw [round_eq, h, Rat.floor_intCast_div_natCast]
  unfold roundDiv10
  rw [Int.fdiv_eq_ediv _ (by norm_num)]
  norm_num

/-! ### The claims -/

/-- C2.  `validate` is boolean-valued and true exactly on non-empty strings
matching `^(https?://)?([\w-]+\.)+[\w-]+(/[\w- ./?%&=]*)?$`; in particular
it accepts `example.com` and `https://a.b/x?y=1`, rejects the empty string
and `not a url!!`, and `validateInput` drives the trigger control:
`analyzeBtn.disabled` is set to the negation of `validate` on the trimmed
input. -/
theorem claim2_validate :
    validate "example.com" = true ∧
    validate "https://a.b/x?y=1" = true ∧
    validate "" = false ∧
    validate "not a url!!" = false ∧
    (∀ url : String, validate url = true ↔ url ≠ "" ∧ urlPattern.rmatch url = true) ∧
    (∀ st : DOMState,
      (validateInput st).analyzeBtnDisabled = !validate (jsTrim st.urlInput)) := by
  refine ⟨by decide, by decide, by decide, by decide, ?_, fun st => rfl⟩
  intro url
  simp [validate, ne_eq]

/-- C3.  For an integer score `s` with `0 ≤ s ≤ 100`, `displayResults`
shows `round(s/10)` (an integer between 0 and 10) over 10 and sets the
progress-bar fill to that value times ten percent; the code's
`Math.round(score/10)` equals mathematical half-up rounding of `s/10`. -/
theorem claim3_score_display (s : ℕ) (st : DOMState) (ps : List ParameterResult)
    (h : s ≤ 100) :
    (displayResults st (AnalysisResponse.toJson ⟨(s : ℤ), ps⟩)).1.scoreValueText
        = toString (roundDiv10 (s : ℤ)) ++ "/10" ∧
    (displayResults st (AnalysisResponse.toJson ⟨(s : ℤ), ps⟩)).1.progressFillWidth
        = toString (roundDiv10 (s : ℤ) * 10) ++ "%" ∧
    roundDiv10 (s : ℤ) = round ((s : ℚ) / 10) ∧
    0 ≤ roundDiv10 (s : ℤ) ∧ roundDiv10 (s : ℤ) ≤ 10 := by
  refine ⟨by rw [displayResults_toJson], by rw [displayResults_toJson],
    roundDiv10_eq_round s, ?_, ?_⟩ <;>
    · unfold roundDiv10
      rw [Int.fdiv_eq_ediv _ (by norm_num)]
      omega

/-- C3, witness at `s = 77`: displayed `8/10` with an `80%` fill, and the
claim's example values. -/
theorem claim3_score_display_witness :
    (displayResults initialState (AnalysisResponse.toJson ⟨77, []⟩)).1.scoreValueText
        = "8/10" ∧
    (displayResults initialState (AnalysisResponse.toJson ⟨77, []⟩)).1.progressFillWidth
        = "80%" ∧
    roundDiv10 77 = round ((77 : ℚ) / 10) ∧
    roundDiv10 5 = 1 := by
  have h := claim3_score_display 77 initialState [] (by norm_num)
  exact ⟨h.1.trans (by decide), h.2.1.trans (by decide),
    h.2.2.1, by decide⟩

/-! ### More helper lemmas for the workflow claims -/

/-- No branch of `displayResults` writes the input field. -/
lemma displayResults_urlInput (st : DOMState) (j : JsonVal) :
    ((displayResults st j).1).urlInput = st.urlInput := by
  simp only [displayResults]
  repeat' split
  all_goals rfl

lemma showLoading_urlInput (b : Bool) (st : DOMState) :
    (showLoading b st).urlInput = st.urlInput := by
  cases b <;> rfl

/-- `handleAnalyze` never writes the input field. -/
lemma handleAnalyze_urlInput (st : DOMState) (o : FetchOutcome) :
    (handleAnalyze st o).state.urlInput = st.urlInput := by
  simp only [handleAnalyze]
  split
  · rfl
  · cases o with
    | success j =>
      simp only [performAnalysis]
      rcases hd : displayResults (showLoading true st) j with ⟨st2, err⟩
      have h2 : st2.urlInput = st.urlInput := by
        have h3 := displayResults_urlInput (showLoading true st) j
        rw [hd] at h3
        simpa [showLoading_urlInput] using h3
      cases err <;> simp [h2, showLoading, expandPopup]
    | httpError c b => rfl
    | networkError m => rfl

/-! ### The remaining claims -/

/-- C1, counterexample: `not a url!!` is non-empty and fails `validate`,
yet `handleAnalyze` with it in the input field still runs
`performAnalysis` — the network request is sent — and the surfaced message
is not the validation one. -/
theorem claim1_counterexample :
    validate "not a url!!" = false ∧
    (handleAnalyze { initialState with urlInput := "not a url!!" }
        (.networkError "connection refused")).requestSent = true ∧
    (handleAnalyze { initialState with urlInput := "not a url!!" }
        (.networkError "connection refused")).alerts ≠ ["Please enter a URL"] :=
  ⟨by decide, by decide, by decide⟩

/-- C1 as amended: `handleAnalyze` raises its validation error — the
user-visible `Please enter a URL` alert — and sends no network request
exactly when the trimmed URL is empty, leaving the DOM untouched; the full
pattern check of `validate` gates only the trigger control, not the
request. -/
theorem claim1_empty_url (st : DOMState) (o : FetchOutcome)
    (h : jsTrim st.urlInput = "") :
    (handleAnalyze st o).requestSent = false ∧
    (handleAnalyze st o).alerts = ["Please enter a URL"] ∧
    (handleAnalyze st o).state = st := by
  simp only [handleAnalyze]
  rw [if_pos h]
  exact ⟨rfl, rfl, rfl⟩

/-- C1, witness: the empty input shows the validation message and sends
nothing. -/
theorem claim1_empty_url_witness :
    (handleAnalyze initialState (.networkError "offline")).requestSent = false ∧
    (handleAnalyze initialState (.networkError "offline")).alerts
        = ["Please enter a URL"] ∧
    (handleAnalyze initialState (.networkError "offline")).state = initialState :=
  claim1_empty_url initialState (.networkError "offline") (by decide)

/-- C4.  Once `handleAnalyze` enters Loading (non-empty trimmed URL), the
trigger is disabled right after `showLoading(true)` and stays disabled in
every intermediate state of the call — after `displayResults` on any
payload and after `expandPopup` — and the `finally`-equivalent step leaves
the loader hidden and the trigger re-enabled regardless of outcome. -/
theorem claim4_loading_final (st : DOMState) (o : FetchOutcome)
    (h : jsTrim st.urlInput ≠ "") :
    (showLoading true st).analyzeBtnDisabled = true ∧
    (∀ j : JsonVal,
      ((displayResults (showLoading true st) j).1).analyzeBtnDisabled = true) ∧
    (∀ j : JsonVal,
      (expandPopup (displayResults (showLoading true st) j).1).analyzeBtnDisabled
        = true) ∧
    (handleAnalyze st o).state.analyzeBtnDisabled = false ∧
    (handleAnalyze st o).state.loaderHidden = true := by
  obtain ⟨⟨s, hs⟩, -⟩ := handleAnalyze_nonempty st o h
  refine ⟨rfl, ?_, ?_, ?_, ?_⟩
  · intro j
    rw [displayResults_disabled]
    rfl
  · intro j
    rw [expandPopup_disabled, displayResults_disabled]
    rfl
  · rw [hs, showLoading_false_disabled]
  · rw [hs, showLoading_false_loaderHidden]

/-- C4, witness on a failing request for `http://test.com`. -/
theorem claim4_loading_final_witness :
    (showLoading true
      { initialState with urlInput := "http://test.com" }).analyzeBtnDisabled = true ∧
    ((displayResults (showLoading true { initialState with urlInput := "http://test.com" })
        JsonVal.null).1).analyzeBtnDisabled = true ∧
    (handleAnalyze { initialState with urlInput := "http://test.com" }
        (.httpError 500 "oops")).state.analyzeBtnDisabled = false ∧
    (handleAnalyze { initialState with urlInput := "http://test.com" }
        (.httpError 500 "oops")).state.loaderHidden = true := by
  have h := claim4_loading_final { initialState with urlInput := "http://test.com" }
    (.httpError 500 "oops") (by decide)
  exact ⟨h.1, h.2.1 JsonVal.null, h.2.2.2.1, h.2.2.2.2⟩

/-- C5.  `displayResults` rebuilds the parameter list from the response
alone, in array order: it does not depend on the previous list, a second
render fully replaces the first, and an empty `parameters` array yields an
empty list with no throw. -/
theorem claim5_list_rebuild (st : DOMState) (a b : AnalysisResponse) :
    (displayResults st a.toJson).1.parametersList = a.parameters.map renderParam ∧
    (displayResults st a.toJson).2 = none ∧
    (displayResults (displayResults st a.toJson).1 b.toJson).1.parametersList
        = b.parameters.map renderParam ∧
    (displayResults st (AnalysisResponse.toJson ⟨a.score, []⟩)).1.parametersList
        = [] := by
  refine ⟨?_, ?_, ?_, ?_⟩ <;> simp [displayResults_toJson]

/-- C6.  A rendered row keeps `icon` and `name` verbatim and capitalizes
only the status label (first character uppercased, the rest kept); the
spec's mocked response renders `7/10`, a `70%` fill, and one row with name
`HTTPS` and status text `Safe`. -/
theorem claim6_row_rendering :
    (∀ p : ParameterResult,
      renderParamItem p.toJson =
        .ok { icon := p.icon, name := p.name,
              statusClass := "status-" ++ p.status,
              statusLabel := capitalizeFirst p.status }) ∧
    (∀ (c : Char) (cs : List Char),
      capitalizeFirst (String.mk (c :: cs)) = String.mk (c.toUpper :: cs)) ∧
    displayResults initialState (JsonVal.obj [("score", JsonVal.num 65),
        ("parameters", JsonVal.arr [JsonVal.obj [("icon", JsonVal.str "🔒"),
          ("name", JsonVal.str "HTTPS"), ("status", JsonVal.str "safe")]])]) =
      ({ initialState with resultsHidden := false,
                           scoreValueText := "7/10",
                           progressFillWidth := "70%",
                           parametersList :=
                             [RenderedParam.mk "🔒" "HTTPS" "status-safe" "Safe"] },
        none) := by
  refine ⟨fun p => renderParamItem_toJson p, fun c cs => rfl, ?_⟩
  have h1 : capitalizeFirst "safe" = "Safe" := by decide
  have hrow : renderParamItem (JsonVal.obj [("icon", JsonVal.str "🔒"),
      ("name", JsonVal.str "HTTPS"), ("status", JsonVal.str "safe")]) =
      Except.ok (RenderedParam.mk "🔒" "HTTPS" "status-safe" "Safe") := by
    simp [renderParamItem, getProp, lookupField, jsDisplayOpt, jsDisplay, h1,
      bind, Except.bind]
  have hs1 : toString (roundDiv10 65) ++ "/10" = "7/10" := by decide
  have hs2 : toString (roundDiv10 65 * 10) ++ "%" = "70%" := by decide
  simp [displayResults, getProp, lookupField, scoreToNumber, renderParamsLoop,
    hrow, hs1, hs2]

/-- C7.  A non-2xx response makes `performAnalysis` fail with an error
carrying the status code and the body text, while `handleAnalyze` shows
only the fixed generic message, which depends on neither. -/
theorem claim7_http_error (st : DOMState) (status : Nat) (body : String)
    (h : jsTrim st.urlInput ≠ "") :
    performAnalysis (.httpError status body) =
      .error ("HTTP error " ++ toString status ++ ": " ++ body) ∧
    (handleAnalyze st (.httpError status body)).alerts = [analysisFailedMsg] ∧
    analysisFailedMsg = "Analysis failed. Please try again." := by
  refine ⟨rfl, ?_, rfl⟩
  simp only [handleAnalyze]
  rw [if_neg h]
  rfl

/-- C7, witness at a 404 with body `Not Found`. -/
theorem claim7_http_error_witness :
    performAnalysis (.httpError 404 "Not Found") =
      .error ("HTTP error " ++ toString 404 ++ ": " ++ "Not Found") ∧
    (handleAnalyze { initialState with urlInput := "http://test.com" }
        (.httpError 404 "Not Found")).alerts = [analysisFailedMsg] ∧
    analysisFailedMsg = "Analysis failed. Please try again." :=
  claim7_http_error { initialState with urlInput := "http://test.com" }
    404 "Not Found" (by decide)

/-- C8, counterexample: a whitespace-only tab URL passes the
`tab && tab.url` guard and is auto-filled, and the absent preference
defaults to enabled, yet no analysis is scheduled — the storage callback
additionally requires the trimmed input to be non-empty. -/
theorem claim8_counterexample :
    (autoFillURL initialState (some " ") none).state.urlInput = " " ∧
    autoAnalyzeEnabled none = true ∧
    (autoFillURL initialState (some " ") none).analyzeDelayMs = none :=
  ⟨by decide, rfl, by decide⟩

/-- C8 as amended: on load, when a tab URL is auto-filled, the persisted
`autoAnalyze` preference is not `false` (an absent key defaults to
enabled), and the filled URL is non-blank after trimming, `handleAnalyze`
is scheduled after the fixed 500 ms delay; when the preference is `false`,
or no URL was auto-filled, or the filled URL trims to empty, nothing is
scheduled. -/
theorem claim8_auto_trigger (st : DOMState) (u : String) (pref : Option Bool) :
    (jsTrim u ≠ "" → autoAnalyzeEnabled pref = true →
      (autoFillURL st (some u) pref).analyzeDelayMs = some 500) ∧
    (autoFillURL st none pref).analyzeDelayMs = none ∧
    (autoFillURL st (some u) (some false)).analyzeDelayMs = none ∧
    (jsTrim u = "" → (autoFillURL st (some u) pref).analyzeDelayMs = none) := by
  refine ⟨?_, rfl, ?_, ?_⟩
  · intro hne hen
    have hu : u ≠ "" := by
      intro hu
      exact hne (by rw [hu]; rfl)
    simp only [autoFillURL]
    rw [if_neg hu, if_pos (by simp [hen, hne])]
  · simp only [autoFillURL]
    split
    · rfl
    · rw [if_neg (by simp [autoAnalyzeEnabled])]
  · intro he
    simp only [autoFillURL]
    split
    · rfl
    · rw [if_neg (by simp [he])]

/-- C8, witness: `http://test.com` auto-filled with the preference absent
schedules the analysis after 500 ms. -/
theorem claim8_auto_trigger_witness :
    (autoFillURL initialState (some "http://test.com") none).analyzeDelayMs
      = some 500 :=
  (claim8_auto_trigger initialState "http://test.com" none).1 (by decide) rfl

/-- C9.  Any `handleAnalyze` call that entered Loading re-enables the
trigger unconditionally and leaves the input field unchanged, so when the
remaining input fails `validate` the final trigger state disagrees with
what `validateInput` would set — the relation `disabled iff invalid` is
not preserved across completion. -/
theorem claim9_unconditional_enable (st : DOMState) (o : FetchOutcome)
    (h : jsTrim st.urlInput ≠ "") :
    (handleAnalyze st o).state.analyzeBtnDisabled = false ∧
    (handleAnalyze st o).state.urlInput = st.urlInput ∧
    (validate (jsTrim st.urlInput) = false →
      (handleAnalyze st o).state.analyzeBtnDisabled
        ≠ (validateInput (handleAnalyze st o).state).analyzeBtnDisabled) := by
  obtain ⟨⟨s, hs⟩, -⟩ := handleAnalyze_nonempty st o h
  have hdis : (handleAnalyze st o).state.analyzeBtnDisabled = false := by
    rw [hs, showLoading_false_disabled]
  have hurl := handleAnalyze_urlInput st o
  refine ⟨hdis, hurl, fun hv => ?_⟩
  have hvi : (validateInput (handleAnalyze st o).state).analyzeBtnDisabled = true := by
    simp [validateInput, hurl, hv]
  rw [hdis, hvi]
  simp

/-- C9, witness: after a failed analysis of the pattern-failing input
`not a url!!` the trigger is enabled although `validate` rejects the
input. -/
theorem claim9_unconditional_enable_witness :
    (handleAnalyze { initialState with urlInput := "not a url!!" }
        (.networkError "down")).state.analyzeBtnDisabled = false ∧
    validate (jsTrim "not a url!!") = false := by
  have h := claim9_unconditional_enable
    { initialState with urlInput := "not a url!!" } (.networkError "down") (by decide)
  exact ⟨h.1, by decide⟩

/-- C10.  Any success payload whose rendering throws is caught at the
outer boundary of `handleAnalyze`: the user gets the generic failure
message, and the guaranteed final step still hides the loader and
re-enables the trigger, so the UI does not remain in Loading. -/
theorem claim10_render_throw_caught (st : DOMState) (j : JsonVal)
    (h : jsTrim st.urlInput ≠ "")
    (hthrow : (displayResults (showLoading true st) j).2.isSome = true) :
    (handleAnalyze st (.success j)).alerts = [analysisFailedMsg] ∧
    (handleAnalyze st (.success j)).state.loaderHidden = true ∧
    (handleAnalyze st (.success j)).state.analyzeBtnDisabled = false := by
  simp only [handleAnalyze]
  rw [if_neg h]
  simp only [performAnalysis]
  rcases hd : displayResults (showLoading true st) j with ⟨st2, err⟩
  rw [hd] at hthrow
  cases err with
  | none => simp at hthrow
  | some e => exact ⟨rfl, rfl, rfl⟩

/-- C10, witness: a success payload with no `parameters` field throws in
`displayResults` (`undefined.forEach`), and the call still ends with the
generic message, the loader hidden and the trigger enabled. -/
theorem claim10_render_throw_caught_witness :
    (handleAnalyze { initialState with urlInput := "http://test.com" }
        (.success (JsonVal.obj [("score", JsonVal.num 65)]))).alerts
        = [analysisFailedMsg] ∧
    (handleAnalyze { initialState with urlInput := "http://test.com" }
        (.success (JsonVal.obj [("score", JsonVal.num 65)]))).state.loaderHidden
        = true ∧
    (handleAnalyze { initialState with urlInput := "http://test.com" }
        (.success (JsonVal.obj [("score", JsonVal.num 65)]))).state.analyzeBtnDisabled
        = false :=
  claim10_render_throw_caught { initialState with urlInput := "http://test.com" }
    (JsonVal.obj [("score", JsonVal.num 65)]) (by decide) (by decide)

end WebSafe
